import Mathlib

/-!
Verification of the DrumPads firmware core
(`firmware/projects/Proyecto_DrumPads_2025/main/Proyecto_DrumPads_2025.c`,
with the single-channel variant in
`firmware/projects/Proyecto_AD/main/proyecto_AD.c`).

The embedding models:
* the millivolt conversion `(raw * 3300UL) / 4095UL` performed in `AdcTask`;
* one sampling pass of `AdcTask` (read both channels, convert, emit the
  telemetry line, then per-channel threshold + cooldown detection with
  notification of the LED task and of `PlaySoundTask`), as a state
  transition on the pair of `last_hit_time` variables together with the
  ordered list of externally visible actions of the pass;
* runs of `AdcTask` over a list of pass inputs;
* the FreeRTOS task-notification slot used to trigger `PlaySoundTask`
  (`xTaskNotify` with `eSetValueWithOverwrite` / `xTaskNotifyWait`),
  as a single-slot overwrite mailbox;
* the body of `PlaySoundTask` as the list of values written to the DAC.

Machine integers: `current_time` and the `last_hit_time` variables are
`uint32_t` in the source, so the C subtraction `current_time - last_hit_time`
is modular; `usub32` reproduces it exactly.  The multiplication
`valor_adc * 3300UL` cannot overflow (`valor_adc` is a `uint16_t`, and
65535 * 3300 < 2^32), so plain `Nat` arithmetic is exact for it.
-/

namespace DrumPads

/-! ## Constants from the source -/

/-- `#define ADC_THRESHOLD_MV_MINIMUM 400` -/
def ADC_THRESHOLD_MV_MINIMUM : Nat := 400

/-- `#define HIT_COOLDOWN_MS 100` -/
def HIT_COOLDOWN_MS : Nat := 100

/-- `#define PLAY_SNARE 1` -/
def PLAY_SNARE : Nat := 1

/-- `#define PLAY_HIHAT 2` -/
def PLAY_HIHAT : Nat := 2

/-- `#define SAMPLE_RATE 8000` -/
def SAMPLE_RATE : Nat := 8000

/-- Modulus of `uint32_t` arithmetic. -/
def U32 : Nat := 2 ^ 32

/-- C unsigned 32-bit subtraction `a - b` on values reduced mod `2^32`. -/
def usub32 (a b : Nat) : Nat := (a % U32 + (U32 - b % U32)) % U32

/-- Millivolt conversion performed by `AdcTask`:
`milliv = (uint32_t)((valor_adc * 3300UL) / 4095UL)`. -/
def mvOf (raw : Nat) : Nat := raw * 3300 / 4095

/-! ## The sampling-and-detection task (`AdcTask`) -/

/-- The mutable per-channel state of `AdcTask`: the two `uint32_t`
local variables `last_hit_time_A` and `last_hit_time_B`, both
initialised to 0 at task start. -/
structure AdcState where
  last_hit_time_A : Nat
  last_hit_time_B : Nat
deriving Repr, DecidableEq

/-- `last_hit_time_A = 0; last_hit_time_B = 0;` at the top of `AdcTask`. -/
def initState : AdcState := ⟨0, 0⟩

/-- The environment-supplied data of one sampling pass: the two raw ADC
readings delivered by `AnalogInputReadSingle`, and the value of
`current_time = xTaskGetTickCount() * portTICK_PERIOD_MS` (milliseconds,
a `uint32_t`). -/
structure PassInput where
  rawA : Nat
  rawB : Nat
  time : Nat
deriving Repr, DecidableEq

/-- Externally visible actions of `AdcTask`, in program order:
the two ADC reads, the UART telemetry line `"A:%lu,B:%lu\r\n"`
(recorded by its two formatted values), the `vTaskNotifyGive` to
`UmbralTask`, and the `xTaskNotify(playSound_task_handle, id, ...)`. -/
inductive Action where
  | readA (raw : Nat)
  | readB (raw : Nat)
  | telemetry (mvA mvB : Nat)
  | notifyLed
  | notifySound (sid : Nat)
deriving Repr, DecidableEq

/-- The "Comprueba PAD A" block of `AdcTask`:
`if ((milliv_A > ADC_THRESHOLD_MV_MINIMUM) && (current_time - last_hit_time_A > HIT_COOLDOWN_MS))`
then record the hit time, `vTaskNotifyGive` the LED task and
`xTaskNotify` `PlaySoundTask` with `PLAY_SNARE`. -/
def checkPadA (st : AdcState) (mvA t : Nat) : AdcState × List Action :=
  if mvA > ADC_THRESHOLD_MV_MINIMUM ∧ usub32 t st.last_hit_time_A > HIT_COOLDOWN_MS then
    ({ st with last_hit_time_A := t },
      [Action.notifyLed, Action.notifySound PLAY_SNARE])
  else (st, [])

/-- The "Comprueba PAD B" block of `AdcTask`, notifying with `PLAY_HIHAT`. -/
def checkPadB (st : AdcState) (mvB t : Nat) : AdcState × List Action :=
  if mvB > ADC_THRESHOLD_MV_MINIMUM ∧ usub32 t st.last_hit_time_B > HIT_COOLDOWN_MS then
    ({ st with last_hit_time_B := t },
      [Action.notifyLed, Action.notifySound PLAY_HIHAT])
  else (st, [])

/-- One iteration of the `while (1)` loop of `AdcTask` after the timer
notification: read both channels, convert, send telemetry, then check
PAD A and PAD B in that order (PAD B runs on the state left by PAD A).
Returns the updated state and the actions of the pass in execution order. -/
def adcPass (st : AdcState) (inp : PassInput) : AdcState × List Action :=
  let mvA := mvOf inp.rawA
  let mvB := mvOf inp.rawB
  let stepA := checkPadA st mvA inp.time
  let stepB := checkPadB stepA.1 mvB inp.time
  (stepB.1,
    [Action.readA inp.rawA, Action.readB inp.rawB, Action.telemetry mvA mvB]
      ++ stepA.2 ++ stepB.2)

/-- A run of `AdcTask` over a list of pass inputs: final state and the
per-pass action lists. -/
def adcRun (st : AdcState) : List PassInput → AdcState × List (List Action)
  | [] => (st, [])
  | inp :: rest =>
    let out := adcPass st inp
    let tail := adcRun out.1 rest
    (tail.1, out.2 :: tail.2)

/-- State of `AdcTask` after processing `inputs` from task start. -/
def stateAfter (inputs : List PassInput) : AdcState := (adcRun initState inputs).1

/-- Per-pass action traces of `AdcTask` over `inputs` from task start. -/
def traces (inputs : List PassInput) : List (List Action) := (adcRun initState inputs).2

/-! ## Spec-level event recursion

The spec states: an event fires on channel X at pass `i` iff
`value[i] > THRESHOLD` and `(time[i] - time[last_event_X]) > COOLDOWN`,
where `time[last_event_X]` is the time of the channel's last accepted
event (0 when none has been accepted yet).  The following fold is that
recursion, written from the spec's words, to be compared against the
code state. -/

/-- Spec-level update of channel A's last accepted event time. -/
def specStepA (last : Nat) (inp : PassInput) : Nat :=
  if mvOf inp.rawA > ADC_THRESHOLD_MV_MINIMUM ∧ usub32 inp.time last > HIT_COOLDOWN_MS then
    inp.time
  else last

/-- Spec-level update of channel B's last accepted event time. -/
def specStepB (last : Nat) (inp : PassInput) : Nat :=
  if mvOf inp.rawB > ADC_THRESHOLD_MV_MINIMUM ∧ usub32 inp.time last > HIT_COOLDOWN_MS then
    inp.time
  else last

/-- Time of channel A's last accepted event after the given passes (0 if none). -/
def specLastA (inputs : List PassInput) : Nat := inputs.foldl specStepA 0

/-- Time of channel B's last accepted event after the given passes (0 if none). -/
def specLastB (inputs : List PassInput) : Nat := inputs.foldl specStepB 0

/-- Spec-level fire predicate for channel A at the pass following `pre`. -/
def firesA (pre : List PassInput) (inp : PassInput) : Prop :=
  mvOf inp.rawA > ADC_THRESHOLD_MV_MINIMUM ∧
    usub32 inp.time (specLastA pre) > HIT_COOLDOWN_MS

/-- Spec-level fire predicate for channel B at the pass following `pre`. -/
def firesB (pre : List PassInput) (inp : PassInput) : Prop :=
  mvOf inp.rawB > ADC_THRESHOLD_MV_MINIMUM ∧
    usub32 inp.time (specLastB pre) > HIT_COOLDOWN_MS

instance (pre : List PassInput) (inp : PassInput) : Decidable (firesA pre inp) := by
  unfold firesA; infer_instance

instance (pre : List PassInput) (inp : PassInput) : Decidable (firesB pre inp) := by
  unfold firesB; infer_instance

/-- Is an action one of the two event notifications
(`vTaskNotifyGive` to the LED task / `xTaskNotify` to `PlaySoundTask`)? -/
def isNotifyAction : Action → Bool
  | Action.notifyLed => true
  | Action.notifySound _ => true
  | _ => false

/-- Does a pass trace contain any event notification? -/
def hasEventNotification (tr : List Action) : Bool :=
  tr.any isNotifyAction

/-! ## The playback notification slot and `PlaySoundTask` -/

/-- The FreeRTOS task-notification slot of `PlaySoundTask`: one pending
flag and one 32-bit value. -/
structure Mailbox where
  pending : Bool
  value : Nat
deriving Repr, DecidableEq

/-- `xTaskNotify(playSound_task_handle, v, eSetValueWithOverwrite)`:
unconditionally overwrite the notification value and mark it pending. -/
def xTaskNotifyOverwrite (_m : Mailbox) (v : Nat) : Mailbox := ⟨true, v⟩

/-- `xTaskNotifyWait(0, 0xFFFFFFFF, &soundToPlay, ...)`: if a
notification is pending, consume it (the value is cleared on exit);
otherwise nothing is available. -/
def mailboxDrain (m : Mailbox) : Option Nat × Mailbox :=
  if m.pending then (some m.value, ⟨false, 0⟩) else (none, m)

/-- One wake-up of `PlaySoundTask` with notification value `soundToPlay`:
the list of values written to the DAC by `AnalogOutputWrite`, in order.
The sample buffers (defined in the data-asset file `drum_samples.c`,
declared in `drum_samples.h`) are parameters.  The selected buffer is
streamed sample by sample, then `AnalogOutputWrite(512)` runs
unconditionally. -/
def playSoundWrites (snare hihat : List Int) (soundToPlay : Nat) : List Int :=
  (if soundToPlay = PLAY_SNARE then snare
   else if soundToPlay = PLAY_HIHAT then hihat
   else []) ++ [512]

/-- `vTaskDelay(pdMS_TO_TICKS(1000 / SAMPLE_RATE))`: the per-sample
delay in milliseconds, computed in C integer arithmetic. -/
def perSampleDelayMs : Nat := 1000 / SAMPLE_RATE

/-! ## Helper lemmas on `checkPadA`, `checkPadB`, `adcPass`, `adcRun` -/

theorem checkPadA_fst_A (st : AdcState) (mv t : Nat) :
    (checkPadA st mv t).1.last_hit_time_A =
      (if mv > ADC_THRESHOLD_MV_MINIMUM ∧ usub32 t st.last_hit_time_A > HIT_COOLDOWN_MS
       then t else st.last_hit_time_A) := by
  unfold checkPadA; split <;> rfl

theorem checkPadA_fst_B (st : AdcState) (mv t : Nat) :
    (checkPadA st mv t).1.last_hit_time_B = st.last_hit_time_B := by
  unfold checkPadA; split <;> rfl

theorem checkPadB_fst_B (st : AdcState) (mv t : Nat) :
    (checkPadB st mv t).1.last_hit_time_B =
      (if mv > ADC_THRESHOLD_MV_MINIMUM ∧ usub32 t st.last_hit_time_B > HIT_COOLDOWN_MS
       then t else st.last_hit_time_B) := by
  unfold checkPadB; split <;> rfl

theorem checkPadB_fst_A (st : AdcState) (mv t : Nat) :
    (checkPadB st mv t).1.last_hit_time_A = st.last_hit_time_A := by
  unfold checkPadB; split <;> rfl

theorem checkPadA_snare_mem (st : AdcState) (mv t : Nat) :
    Action.notifySound PLAY_SNARE ∈ (checkPadA st mv t).2 ↔
      (mv > ADC_THRESHOLD_MV_MINIMUM ∧ usub32 t st.last_hit_time_A > HIT_COOLDOWN_MS) := by
  unfold checkPadA; split <;> simp_all

theorem checkPadA_hihat_not_mem (st : AdcState) (mv t : Nat) :
    Action.notifySound PLAY_HIHAT ∉ (checkPadA st mv t).2 := by
  unfold checkPadA; split <;> simp [PLAY_SNARE, PLAY_HIHAT]

theorem checkPadB_hihat_mem (st : AdcState) (mv t : Nat) :
    Action.notifySound PLAY_HIHAT ∈ (checkPadB st mv t).2 ↔
      (mv > ADC_THRESHOLD_MV_MINIMUM ∧ usub32 t st.last_hit_time_B > HIT_COOLDOWN_MS) := by
  unfold checkPadB; split <;> simp_all

theorem checkPadB_snare_not_mem (st : AdcState) (mv t : Nat) :
    Action.notifySound PLAY_SNARE ∉ (checkPadB st mv t).2 := by
  unfold checkPadB; split <;> simp [PLAY_SNARE, PLAY_HIHAT]

theorem checkPadA_led_mem (st : AdcState) (mv t : Nat) :
    Action.notifyLed ∈ (checkPadA st mv t).2 ↔
      (mv > ADC_THRESHOLD_MV_MINIMUM ∧ usub32 t st.last_hit_time_A > HIT_COOLDOWN_MS) := by
  unfold checkPadA; split <;> simp_all

theorem checkPadB_led_mem (st : AdcState) (mv t : Nat) :
    Action.notifyLed ∈ (checkPadB st mv t).2 ↔
      (mv > ADC_THRESHOLD_MV_MINIMUM ∧ usub32 t st.last_hit_time_B > HIT_COOLDOWN_MS) := by
  unfold checkPadB; split <;> simp_all

theorem adcPass_fst_A (st : AdcState) (inp : PassInput) :
    (adcPass st inp).1.last_hit_time_A = specStepA st.last_hit_time_A inp := by
  unfold adcPass specStepA
  rw [checkPadB_fst_A, checkPadA_fst_A]

theorem adcPass_fst_B (st : AdcState) (inp : PassInput) :
    (adcPass st inp).1.last_hit_time_B = specStepB st.last_hit_time_B inp := by
  unfold adcPass specStepB
  rw [checkPadB_fst_B, checkPadA_fst_B]

theorem adcRun_fst_A (inputs : List PassInput) :
    ∀ st : AdcState, (adcRun st inputs).1.last_hit_time_A
      = inputs.foldl specStepA st.last_hit_time_A := by
  induction inputs with
  | nil => intro st; rfl
  | cons inp rest ih =>
    intro st
    show (adcRun (adcPass st inp).1 rest).1.last_hit_time_A = _
    rw [ih, List.foldl_cons, adcPass_fst_A]

theorem adcRun_fst_B (inputs : List PassInput) :
    ∀ st : AdcState, (adcRun st inputs).1.last_hit_time_B
      = inputs.foldl specStepB st.last_hit_time_B := by
  induction inputs with
  | nil => intro st; rfl
  | cons inp rest ih =>
    intro st
    show (adcRun (adcPass st inp).1 rest).1.last_hit_time_B = _
    rw [ih, List.foldl_cons, adcPass_fst_B]

/-- The code variable `last_hit_time_A` tracks the spec-level time of
channel A's last accepted event. -/
theorem stateAfter_A (inputs : List PassInput) :
    (stateAfter inputs).last_hit_time_A = specLastA inputs :=
  adcRun_fst_A inputs initState

/-- The code variable `last_hit_time_B` tracks the spec-level time of
channel B's last accepted event. -/
theorem stateAfter_B (inputs : List PassInput) :
    (stateAfter inputs).last_hit_time_B = specLastB inputs :=
  adcRun_fst_B inputs initState

theorem adcPass_snare_mem (st : AdcState) (inp : PassInput) :
    Action.notifySound PLAY_SNARE ∈ (adcPass st inp).2 ↔
      (mvOf inp.rawA > ADC_THRESHOLD_MV_MINIMUM ∧
        usub32 inp.time st.last_hit_time_A > HIT_COOLDOWN_MS) := by
  unfold adcPass
  simp only [List.mem_append, List.mem_cons, List.not_mem_nil]
  rw [checkPadA_snare_mem]
  have h1 := checkPadB_snare_not_mem (checkPadA st (mvOf inp.rawA) inp.time).1
    (mvOf inp.rawB) inp.time
  simp_all

theorem adcPass_hihat_mem (st : AdcState) (inp : PassInput) :
    Action.notifySound PLAY_HIHAT ∈ (adcPass st inp).2 ↔
      (mvOf inp.rawB > ADC_THRESHOLD_MV_MINIMUM ∧
        usub32 inp.time st.last_hit_time_B > HIT_COOLDOWN_MS) := by
  unfold adcPass
  simp only [List.mem_append, List.mem_cons, List.not_mem_nil]
  rw [checkPadB_hihat_mem, checkPadA_fst_B]
  have h1 := checkPadA_hihat_not_mem st (mvOf inp.rawA) inp.time
  simp_all

theorem adcPass_led_mem (st : AdcState) (inp : PassInput) :
    Action.notifyLed ∈ (adcPass st inp).2 ↔
      ((mvOf inp.rawA > ADC_THRESHOLD_MV_MINIMUM ∧
          usub32 inp.time st.last_hit_time_A > HIT_COOLDOWN_MS) ∨
        (mvOf inp.rawB > ADC_THRESHOLD_MV_MINIMUM ∧
          usub32 inp.time st.last_hit_time_B > HIT_COOLDOWN_MS)) := by
  unfold adcPass
  simp only [List.mem_append, List.mem_cons, List.not_mem_nil]
  rw [checkPadA_led_mem, checkPadB_led_mem, checkPadA_fst_B]
  simp

/-! ## C1 -/

/-- C1: at the pass following any prefix `pre` of a run, a channel's sound
notification is issued iff its converted value exceeds the 400 mV
threshold and the time elapsed since that channel's last accepted event
(`specLastA`/`specLastB`, the spec-level recursion) exceeds the 100 ms
cooldown; the LED task is notified iff either channel fires; the sound
identifier is `PLAY_SNARE` for channel A and `PLAY_HIHAT` for channel B;
when a channel fires its timestamp is set to the current time, otherwise
the channel state is unchanged. -/
theorem adcTask_event_spec (pre : List PassInput) (inp : PassInput) :
    (Action.notifySound PLAY_SNARE ∈ (adcPass (stateAfter pre) inp).2 ↔ firesA pre inp) ∧
    (Action.notifySound PLAY_HIHAT ∈ (adcPass (stateAfter pre) inp).2 ↔ firesB pre inp) ∧
    (Action.notifyLed ∈ (adcPass (stateAfter pre) inp).2 ↔
      (firesA pre inp ∨ firesB pre inp)) ∧
    (adcPass (stateAfter pre) inp).1.last_hit_time_A
      = (if firesA pre inp then inp.time else (stateAfter pre).last_hit_time_A) ∧
    (adcPass (stateAfter pre) inp).1.last_hit_time_B
      = (if firesB pre inp then inp.time else (stateAfter pre).last_hit_time_B) := by
  have hA := stateAfter_A pre
  have hB := stateAfter_B pre
  refine ⟨?_, ?_, ?_, ?_, ?_⟩
  · rw [adcPass_snare_mem, hA]; exact Iff.rfl
  · rw [adcPass_hihat_mem, hB]; exact Iff.rfl
  · rw [adcPass_led_mem, hA, hB]; exact Iff.rfl
  · rw [adcPass_fst_A]
    unfold specStepA
    rw [hA]
    by_cases h : firesA pre inp
    · rw [if_pos h, if_pos]; exact h
    · rw [if_neg h, if_neg]; exact h
  · rw [adcPass_fst_B]
    unfold specStepB
    rw [hB]
    by_cases h : firesB pre inp
    · rw [if_pos h, if_pos]; exact h
    · rw [if_neg h, if_neg]; exact h

/-! ## C2, C7, C8 -/

/-- C2: for every raw ADC code r in [0, 4095], the conversion yields
`r * 3300 / 4095` in integer arithmetic, is monotone non-decreasing in r,
and is bounded by 3300. -/
theorem mv_conversion (r : Nat) (h : r ≤ 4095) :
    mvOf r = r * 3300 / 4095 ∧ mvOf r ≤ 3300 ∧ ∀ s, s ≤ r → mvOf s ≤ mvOf r := by
  refine ⟨rfl, ?_, ?_⟩
  · calc mvOf r = r * 3300 / 4095 := rfl
      _ ≤ 4095 * 3300 / 4095 := Nat.div_le_div_right (Nat.mul_le_mul_right 3300 h)
      _ = 3300 := by norm_num
  · intro s hs
    exact Nat.div_le_div_right (Nat.mul_le_mul_right 3300 hs)

/-- Witness for C2 at r = 4095. -/
theorem mv_conversion_witness : mvOf 4095 ≤ 3300 :=
  (mv_conversion 4095 (by decide)).2.1

/-- C7 counterexample: the claim says a raw reading of 2000 converts to
1610, but the code's integer conversion `2000 * 3300 / 4095` gives 1611. -/
theorem mv_scenario_counterexample : mvOf 2000 = 1611 ∧ mvOf 2000 ≠ 1610 := by decide

/-- C7 amended: raw=2000 converts to 1611 (above the 400 threshold, so an
event fires if the cooldown has elapsed); raw=500 converts to 402 (above
400, fires if cooldown ok); raw=480 converts to 386 (below threshold, no
event). -/
theorem mv_scenario :
    mvOf 2000 = 1611 ∧ mvOf 2000 > ADC_THRESHOLD_MV_MINIMUM ∧
    mvOf 500 = 402 ∧ mvOf 500 > ADC_THRESHOLD_MV_MINIMUM ∧
    mvOf 480 = 386 ∧ ¬ mvOf 480 > ADC_THRESHOLD_MV_MINIMUM ∧
    firesA [] ⟨2000, 0, 200⟩ ∧ firesA [] ⟨500, 0, 200⟩ ∧
    ¬ firesA [] ⟨480, 0, 200⟩ := by
  refine ⟨by decide, by decide, by decide, by decide, by decide, by decide, ?_, ?_, ?_⟩ <;>
    simp [firesA, specLastA, mvOf, usub32, U32, ADC_THRESHOLD_MV_MINIMUM, HIT_COOLDOWN_MS]

/-- C8: the per-sample pacing delay the code computes is
`1000 / SAMPLE_RATE` milliseconds with `SAMPLE_RATE = 8000`, which is 0
in integer arithmetic — `vTaskDelay(0)` does not delay, so samples are
not paced at ~125 µs. -/
theorem per_sample_delay_is_zero : SAMPLE_RATE = 8000 ∧ perSampleDelayMs = 0 := by decide

/-! ## C5 -/

/-- C5 counterexample: with last-hit times (100, 100) and current time
150 ms, both channels read raw 2000 (= 1611 mV, above the threshold on
both channels), yet the pass issues no event notification at all —
crossing the threshold alone does not make both events fire, the
cooldown must also have elapsed. -/
theorem pass_ordering_counterexample :
    mvOf 2000 > ADC_THRESHOLD_MV_MINIMUM ∧
    (adcPass ⟨100, 100⟩ ⟨2000, 2000, 150⟩).2
      = [Action.readA 2000, Action.readB 2000, Action.telemetry 1611 1611] ∧
    hasEventNotification (adcPass ⟨100, 100⟩ ⟨2000, 2000, 150⟩).2 = false := by
  decide

/-- C5 amended: within every pass, channel A is read strictly before
channel B and telemetry is emitted third, before any notification (the
tail after the first three actions consists of notifications only); and
when both channels fire in the same pass (each exceeding the threshold
with its cooldown elapsed), both events fire and A's sound notification
is issued strictly before B's. -/
theorem pass_ordering (st : AdcState) (inp : PassInput) :
    ((adcPass st inp).2.take 3
      = [Action.readA inp.rawA, Action.readB inp.rawB,
         Action.telemetry (mvOf inp.rawA) (mvOf inp.rawB)]) ∧
    (((adcPass st inp).2.drop 3).all isNotifyAction = true) ∧
    ((mvOf inp.rawA > ADC_THRESHOLD_MV_MINIMUM ∧
        usub32 inp.time st.last_hit_time_A > HIT_COOLDOWN_MS) →
      (mvOf inp.rawB > ADC_THRESHOLD_MV_MINIMUM ∧
        usub32 inp.time st.last_hit_time_B > HIT_COOLDOWN_MS) →
      (adcPass st inp).2
        = [Action.readA inp.rawA, Action.readB inp.rawB,
           Action.telemetry (mvOf inp.rawA) (mvOf inp.rawB),
           Action.notifyLed, Action.notifySound PLAY_SNARE,
           Action.notifyLed, Action.notifySound PLAY_HIHAT]) := by
  refine ⟨?_, ?_, ?_⟩
  · simp only [adcPass]
    unfold checkPadA checkPadB
    split <;> split <;> rfl
  · simp only [adcPass]
    unfold checkPadA checkPadB
    split <;> split <;> rfl
  · intro h1 h2
    simp only [adcPass]
    unfold checkPadA checkPadB
    split <;> simp_all

/-- Witness for C5 at state (0,0), time 150, both raws 2000. -/
theorem pass_ordering_witness :
    (adcPass ⟨0, 0⟩ ⟨2000, 2000, 150⟩).2
      = [Action.readA 2000, Action.readB 2000, Action.telemetry 1611 1611,
         Action.notifyLed, Action.notifySound PLAY_SNARE,
         Action.notifyLed, Action.notifySound PLAY_HIHAT] :=
  (pass_ordering ⟨0, 0⟩ ⟨2000, 2000, 150⟩).2.2 (by decide) (by decide)

/-! ## C6 -/

theorem checkPadA_snare_count (st : AdcState) (mv t : Nat) :
    (checkPadA st mv t).2.count (Action.notifySound PLAY_SNARE)
      = (if mv > ADC_THRESHOLD_MV_MINIMUM ∧ usub32 t st.last_hit_time_A > HIT_COOLDOWN_MS
         then 1 else 0) := by
  unfold checkPadA
  split <;> rfl

theorem checkPadB_snare_count (st : AdcState) (mv t : Nat) :
    (checkPadB st mv t).2.count (Action.notifySound PLAY_SNARE) = 0 := by
  unfold checkPadB; split <;> rfl

theorem checkPadB_hihat_count (st : AdcState) (mv t : Nat) :
    (checkPadB st mv t).2.count (Action.notifySound PLAY_HIHAT)
      = (if mv > ADC_THRESHOLD_MV_MINIMUM ∧ usub32 t st.last_hit_time_B > HIT_COOLDOWN_MS
         then 1 else 0) := by
  unfold checkPadB
  split <;> rfl

theorem checkPadA_hihat_count (st : AdcState) (mv t : Nat) :
    (checkPadA st mv t).2.count (Action.notifySound PLAY_HIHAT) = 0 := by
  unfold checkPadA; split <;> rfl

theorem adcPass_snare_count (st : AdcState) (inp : PassInput) :
    (adcPass st inp).2.count (Action.notifySound PLAY_SNARE)
      = (if mvOf inp.rawA > ADC_THRESHOLD_MV_MINIMUM ∧
            usub32 inp.time st.last_hit_time_A > HIT_COOLDOWN_MS then 1 else 0) := by
  have hbase : ([Action.readA inp.rawA, Action.readB inp.rawB,
      Action.telemetry (mvOf inp.rawA) (mvOf inp.rawB)] : List Action).count
        (Action.notifySound PLAY_SNARE) = 0 := by
    rw [List.count_eq_zero]
    simp
  simp only [adcPass]
  rw [List.count_append, List.count_append, hbase, checkPadA_snare_count,
    checkPadB_snare_count]
  omega

theorem adcPass_hihat_count (st : AdcState) (inp : PassInput) :
    (adcPass st inp).2.count (Action.notifySound PLAY_HIHAT)
      = (if mvOf inp.rawB > ADC_THRESHOLD_MV_MINIMUM ∧
            usub32 inp.time st.last_hit_time_B > HIT_COOLDOWN_MS then 1 else 0) := by
  have hbase : ([Action.readA inp.rawA, Action.readB inp.rawB,
      Action.telemetry (mvOf inp.rawA) (mvOf inp.rawB)] : List Action).count
        (Action.notifySound PLAY_HIHAT) = 0 := by
    rw [List.count_eq_zero]
    simp
  simp only [adcPass]
  rw [List.count_append, List.count_append, hbase, checkPadA_hihat_count,
    checkPadB_hihat_count, checkPadA_fst_B]
  omega

/-- C6: two consecutive passes that both exceed the threshold on the same
channel, the second falling within the cooldown window of the first
accepted event, produce exactly one event on that channel, not two — for
channel A (snare, `last_hit_time_A`) and channel B (hi-hat,
`last_hit_time_B`) alike. -/
theorem debounce_single_event (st : AdcState) (inp1 inp2 : PassInput) :
    ((mvOf inp1.rawA > ADC_THRESHOLD_MV_MINIMUM ∧
        usub32 inp1.time st.last_hit_time_A > HIT_COOLDOWN_MS) →
      mvOf inp2.rawA > ADC_THRESHOLD_MV_MINIMUM →
      usub32 inp2.time inp1.time ≤ HIT_COOLDOWN_MS →
      ((adcPass st inp1).2 ++ (adcPass (adcPass st inp1).1 inp2).2).count
        (Action.notifySound PLAY_SNARE) = 1) ∧
    ((mvOf inp1.rawB > ADC_THRESHOLD_MV_MINIMUM ∧
        usub32 inp1.time st.last_hit_time_B > HIT_COOLDOWN_MS) →
      mvOf inp2.rawB > ADC_THRESHOLD_MV_MINIMUM →
      usub32 inp2.time inp1.time ≤ HIT_COOLDOWN_MS →
      ((adcPass st inp1).2 ++ (adcPass (adcPass st inp1).1 inp2).2).count
        (Action.notifySound PLAY_HIHAT) = 1) := by
  constructor
  · intro hC _h3 h4
    have hno : ¬ (mvOf inp2.rawA > ADC_THRESHOLD_MV_MINIMUM ∧
        usub32 inp2.time inp1.time > HIT_COOLDOWN_MS) :=
      fun hc => absurd hc.2 (Nat.not_lt.mpr h4)
    rw [List.count_append, adcPass_snare_count, adcPass_snare_count, adcPass_fst_A]
    unfold specStepA
    simp [hC, hno]
  · intro hC _h3 h4
    have hno : ¬ (mvOf inp2.rawB > ADC_THRESHOLD_MV_MINIMUM ∧
        usub32 inp2.time inp1.time > HIT_COOLDOWN_MS) :=
      fun hc => absurd hc.2 (Nat.not_lt.mpr h4)
    rw [List.count_append, adcPass_hihat_count, adcPass_hihat_count, adcPass_fst_B]
    unfold specStepB
    simp [hC, hno]

/-- Witness for C6 on both channels: first hits at t = 150, second pass at
t = 200 (50 ms later), both channels above threshold in both passes. -/
theorem debounce_single_event_witness :
    ((adcPass ⟨0, 0⟩ ⟨2000, 2000, 150⟩).2
        ++ (adcPass (adcPass ⟨0, 0⟩ ⟨2000, 2000, 150⟩).1 ⟨2000, 2000, 200⟩).2).count
      (Action.notifySound PLAY_SNARE) = 1 ∧
    ((adcPass ⟨0, 0⟩ ⟨2000, 2000, 150⟩).2
        ++ (adcPass (adcPass ⟨0, 0⟩ ⟨2000, 2000, 150⟩).1 ⟨2000, 2000, 200⟩).2).count
      (Action.notifySound PLAY_HIHAT) = 1 :=
  ⟨(debounce_single_event ⟨0, 0⟩ ⟨2000, 2000, 150⟩ ⟨2000, 2000, 200⟩).1
      (by decide) (by decide) (by decide),
    (debounce_single_event ⟨0, 0⟩ ⟨2000, 2000, 150⟩ ⟨2000, 2000, 200⟩).2
      (by decide) (by decide) (by decide)⟩

/-! ## C3 -/

theorem mailbox_drain_last (v : Nat) (vs : List Nat) (m : Mailbox) :
    (mailboxDrain (List.foldl xTaskNotifyOverwrite m (v :: vs))).1
      = (v :: vs).getLast? := by
  induction vs generalizing m v with
  | nil => rfl
  | cons w ws ih =>
    rw [List.foldl_cons]
    exact (ih w (xTaskNotifyOverwrite m v)).trans (List.getLast?_cons_cons ..).symm

/-- C3: if sound `a` is requested and then sound `b` is requested before
`PlaySoundTask` drains the slot, draining yields exactly one request and
it is `b` (so exactly one playback occurs, of `b`); a further drain yields
nothing (never both); and for any non-empty burst of requests, the single
pending request is the most recent one (single-slot overwrite mailbox). -/
theorem playback_overwrite (m : Mailbox) (a b v : Nat) (vs : List Nat)
    (snare hihat : List Int) :
    (mailboxDrain (xTaskNotifyOverwrite (xTaskNotifyOverwrite m a) b)).1 = some b ∧
    (mailboxDrain
        (mailboxDrain (xTaskNotifyOverwrite (xTaskNotifyOverwrite m a) b)).2).1
      = none ∧
    Option.map (playSoundWrites snare hihat)
        (mailboxDrain (xTaskNotifyOverwrite (xTaskNotifyOverwrite m a) b)).1
      = some (playSoundWrites snare hihat b) ∧
    (mailboxDrain (List.foldl xTaskNotifyOverwrite m (v :: vs))).1
      = (v :: vs).getLast? :=
  ⟨rfl, rfl, rfl, mailbox_drain_last v vs m⟩

/-! ## C4 -/

/-- C4: on a valid sound identifier, `PlaySoundTask` writes exactly the
selected buffer, in order, followed by the neutral value 512: N+1 DAC
writes for a buffer of length N, the last one being 512. -/
theorem playback_completion (snare hihat : List Int) :
    playSoundWrites snare hihat PLAY_SNARE = snare ++ [512] ∧
    (playSoundWrites snare hihat PLAY_SNARE).length = snare.length + 1 ∧
    (playSoundWrites snare hihat PLAY_SNARE).getLast? = some 512 ∧
    playSoundWrites snare hihat PLAY_HIHAT = hihat ++ [512] ∧
    (playSoundWrites snare hihat PLAY_HIHAT).length = hihat.length + 1 ∧
    (playSoundWrites snare hihat PLAY_HIHAT).getLast? = some 512 := by
  refine ⟨rfl, ?_, ?_, rfl, ?_, ?_⟩ <;>
    simp [playSoundWrites, PLAY_SNARE, PLAY_HIHAT]

/-! ## C9 -/

/-- C9: woken with a notification value that is neither `PLAY_SNARE` nor
`PLAY_HIHAT`, `PlaySoundTask` streams no sample buffer and its only DAC
write is the neutral value 512. -/
theorem play_unknown_sid (snare hihat : List Int) (sid : Nat)
    (h1 : sid ≠ PLAY_SNARE) (h2 : sid ≠ PLAY_HIHAT) :
    playSoundWrites snare hihat sid = [512] := by
  unfold playSoundWrites
  rw [if_neg h1, if_neg h2]
  rfl

/-- Witness for C9 at notification value 3. -/
theorem play_unknown_sid_witness :
    playSoundWrites [1, 2, 3] [4, 5] 3 = [512] :=
  play_unknown_sid [1, 2, 3] [4, 5] 3 (by decide) (by decide)

/-! ## C10 -/

theorem usub32_zero (t : Nat) : usub32 t 0 = t % U32 := by
  simp [usub32, U32, Nat.add_mod_right]

theorem adcPass_init_quiet (inp : PassInput) (h : inp.time ≤ HIT_COOLDOWN_MS) :
    adcPass initState inp
      = (initState,
         [Action.readA inp.rawA, Action.readB inp.rawB,
          Action.telemetry (mvOf inp.rawA) (mvOf inp.rawB)]) := by
  have hno : ¬ usub32 inp.time 0 > HIT_COOLDOWN_MS := by
    rw [usub32_zero]
    exact Nat.not_lt.mpr (le_trans (Nat.mod_le _ _) h)
  simp [adcPass, checkPadA, checkPadB, initState, hno]

/-- C10: since both last-hit timestamps start at 0, no event notification
can be issued on either channel while `current_time` has not exceeded the
100 ms cooldown, whatever the readings are; the state also stays at its
initial value over all such passes. -/
theorem no_event_before_cooldown (inputs : List PassInput)
    (h : inputs.all (fun inp => decide (inp.time ≤ HIT_COOLDOWN_MS)) = true) :
    stateAfter inputs = initState ∧
    (traces inputs).all (fun tr => !hasEventNotification tr) = true := by
  induction inputs with
  | nil => exact ⟨rfl, rfl⟩
  | cons inp rest ih =>
    rw [List.all_cons, Bool.and_eq_true] at h
    have ht : inp.time ≤ HIT_COOLDOWN_MS := of_decide_eq_true h.1
    have hq := adcPass_init_quiet inp ht
    obtain ⟨ihs, iht⟩ := ih h.2
    constructor
    · show (adcRun (adcPass initState inp).1 rest).1 = initState
      rw [hq]
      exact ihs
    · show ((adcPass initState inp).2
          :: (adcRun (adcPass initState inp).1 rest).2).all
            (fun tr => !hasEventNotification tr) = true
      rw [hq, List.all_cons, Bool.and_eq_true]
      exact ⟨rfl, iht⟩

/-- Witness for C10: two above-threshold readings at 50 ms and 100 ms. -/
theorem no_event_before_cooldown_witness :
    stateAfter [⟨2000, 2000, 50⟩, ⟨2000, 2000, 100⟩] = initState :=
  (no_event_before_cooldown [⟨2000, 2000, 50⟩, ⟨2000, 2000, 100⟩] (by decide)).1

end DrumPads
